import Mathlib

/-!
A shallow embedding of `src/binary-reader-logging.cc` (wabt's
`BinaryReaderLogging` decorator) and proofs about its specification.

The decorator sits between a binary decoder and a wrapped
`BinaryReaderDelegate`: for each event it renders a trace line to an output
stream and forwards the event, verbatim, to the wrapped delegate.

Modelling conventions:
* machine integers (`Index`, `uint32_t`, `uint64_t`, `Offset`, `Address`)
  become `Nat`; the signed `indent_` counter becomes `Int`;
* each handler's sequence of `Writef`/`WriteData` calls appends bytes to the
  stream in order; we record the concatenated bytes written by one handler as
  one `write` action, followed by the `call` into the wrapped delegate;
* functions implemented outside this repository (libc `printf` formatting of
  floats, `GetTypeName`, `GetKindName`, enum name tables, `Opcode` accessors)
  are modelled from the spec where noted.
-/

namespace Wabt

/-! ## Numeric formatting (printf-style helpers)

`%u`, `%x`, `%08x`, `%d` conversions used in the format strings of the source
file.  Digits are produced little-endian first with an explicit fuel argument
(the fuel is always at least the number of division steps, see
`toDigitsRev_fuel_eq`), so every definition is structurally recursive and
evaluable by `decide`. -/

/-- Character for one digit value (0-15), as printf `%x`/`%u` produce:
`0`-`9` then lowercase `a`-`f`. -/
def digitChar (d : Nat) : Char :=
  if d < 10 then Char.ofNat (48 + d) else Char.ofNat (87 + d)

/-- Little-endian digits of `n` in base `b`, with fuel. -/
def toDigitsRev (b : Nat) : Nat → Nat → List Nat
  | 0, _ => []
  | _ + 1, 0 => []
  | fuel + 1, n => n % b :: toDigitsRev b fuel (n / b)

/-- `n` rendered in base `b` (most significant digit first), as printf
renders unsigned values: no padding, and `0` for zero. -/
def natToBase (b n : Nat) : String :=
  if n = 0 then "0" else String.mk (((toDigitsRev b n n).reverse).map digitChar)

/-- printf `%u` / `%" PRIu64 "` / `%" PRIindex "` / `%" PRIzd "` of a
non-negative value. -/
def decNat (n : Nat) : String := natToBase 10 n

/-- printf `%x`: lowercase hex, no padding. -/
def hexNat (n : Nat) : String := natToBase 16 n

/-- printf `%08x`: lowercase hex zero-padded to (at least) 8 digits. -/
def hex8 (n : Nat) : String :=
  String.mk (List.replicate (8 - (hexNat n).length) '0') ++ hexNat n

/-- printf `%d` of a signed value. -/
def decInt (i : Int) : String :=
  if i < 0 then "-" ++ decNat (-i).toNat else decNat i.toNat

/-- `static_cast<int32_t>` / vararg reinterpretation of a 32-bit unsigned
value as signed, as done for `%d` arguments in the source. -/
def toInt32 (n : Nat) : Int :=
  if n % 2 ^ 32 < 2 ^ 31 then ((n % 2 ^ 32 : Nat) : Int)
  else ((n % 2 ^ 32 : Nat) : Int) - 2 ^ 32

/-- printf `%d` applied to an unsigned 32-bit argument. -/
def decU32AsI32 (n : Nat) : String := decInt (toInt32 n)

/-- Value of a hex digit character (inverse of `digitChar` on 0-15). -/
def hexVal (c : Char) : Nat :=
  if 97 ≤ c.toNat then c.toNat - 87 else c.toNat - 48

/-- Parse a string of hex digits (most significant first) back to a number,
as a reader of the trace would. -/
def parseHex (s : String) : Nat :=
  s.data.foldl (fun a c => 16 * a + hexVal c) 0

/-- Number of newline characters in a string. -/
def nlCount (s : String) : Nat := s.data.count '\n'

/-! ### Lemmas about the formatting helpers -/

theorem string_append_data (s t : String) : (s ++ t).data = s.data ++ t.data := by
  cases s; cases t; rfl

theorem nlCount_append (s t : String) : nlCount (s ++ t) = nlCount s + nlCount t := by
  simp [nlCount, string_append_data]

theorem toDigitsRev_lt (b : Nat) (hb : 0 < b) :
    ∀ fuel n d, d ∈ toDigitsRev b fuel n → d < b := by
  intro fuel
  induction fuel with
  | zero => intro n d h; simp [toDigitsRev] at h
  | succ f ih =>
      intro n d h
      match n with
      | 0 => simp [toDigitsRev] at h
      | n + 1 =>
          simp only [toDigitsRev, List.mem_cons] at h
          rcases h with h | h
          · exact h ▸ Nat.mod_lt _ hb
          · exact ih _ _ h

theorem digitChar_ne_nl (d : Nat) (h : d < 16) : digitChar d ≠ '\n' := by
  interval_cases d <;> decide

theorem nlCount_natToBase (b n : Nat) (hb : 0 < b) (hb16 : b ≤ 16) :
    nlCount (natToBase b n) = 0 := by
  unfold natToBase
  split
  · decide
  · simp only [nlCount, String.mk]
    rw [List.count_eq_zero]
    intro h
    rcases List.mem_map.mp h with ⟨d, hd, hdc⟩
    have hlt : d < b := toDigitsRev_lt b hb _ _ _ (List.mem_reverse.mp hd)
    exact digitChar_ne_nl d (lt_of_lt_of_le hlt hb16) hdc

theorem nlCount_decNat (n : Nat) : nlCount (decNat n) = 0 :=
  nlCount_natToBase 10 n (by norm_num) (by norm_num)

theorem nlCount_hexNat (n : Nat) : nlCount (hexNat n) = 0 :=
  nlCount_natToBase 16 n (by norm_num) (by norm_num)

theorem nlCount_hex8 (n : Nat) : nlCount (hex8 n) = 0 := by
  unfold hex8
  rw [nlCount_append]
  have h1 : nlCount (String.mk (List.replicate (8 - (hexNat n).length) '0')) = 0 := by
    simp [nlCount, List.count_replicate]
  rw [h1, nlCount_hexNat]

theorem nlCount_decInt (i : Int) : nlCount (decInt i) = 0 := by
  unfold decInt
  split
  · rw [nlCount_append]
    have : nlCount "-" = 0 := by decide
    rw [this, nlCount_decNat]
  · exact nlCount_decNat _

theorem nlCount_decU32AsI32 (n : Nat) : nlCount (decU32AsI32 n) = 0 :=
  nlCount_decInt _

/-! ### Hex round-trip -/

theorem hexVal_digitChar (d : Nat) (h : d < 16) : hexVal (digitChar d) = d := by
  interval_cases d <;> decide

/-- Folding the hex parser over little-endian digits, reversed into print
order, recovers the digits' value. -/
theorem parse_foldl_digits (ds : List Nat) (hds : ∀ d ∈ ds, d < 16) :
    ((ds.reverse.map digitChar).foldl (fun a c => 16 * a + hexVal c) 0) =
      ds.foldr (fun d acc => 16 * acc + d) 0 := by
  rw [List.map_reverse, List.foldl_reverse, List.foldr_map]
  induction ds with
  | nil => rfl
  | cons d rest ih =>
      simp only [List.foldr]
      rw [ih (fun x hx => hds x (List.mem_cons_of_mem _ hx)),
        hexVal_digitChar d (hds d (List.mem_cons_self _ _))]

theorem toDigitsRev_value (b : Nat) (hb : 1 < b) :
    ∀ fuel n, n ≤ fuel →
      (toDigitsRev b fuel n).foldr (fun d acc => b * acc + d) 0 = n := by
  intro fuel
  induction fuel with
  | zero => intro n h; interval_cases n; rfl
  | succ f ih =>
      intro n h
      match n with
      | 0 => rfl
      | n + 1 =>
          simp only [toDigitsRev, List.foldr]
          have hdiv : (n + 1) / b ≤ f := by
            have h1 : (n + 1) / b < n + 1 := Nat.div_lt_self (Nat.succ_pos n) hb
            omega
          rw [ih _ hdiv]
          exact Nat.div_add_mod (n + 1) b

theorem parseHex_hexNat (n : Nat) : parseHex (hexNat n) = n := by
  unfold parseHex hexNat natToBase
  split
  · simp_all; decide
  · simp only [String.mk]
    rw [parse_foldl_digits _ (fun d hd => toDigitsRev_lt 16 (by norm_num) _ _ _ hd)]
    exact toDigitsRev_value 16 (by norm_num) n n le_rfl

theorem parseHex_hex8 (n : Nat) : parseHex (hex8 n) = n := by
  unfold hex8 parseHex
  rw [string_append_data, List.foldl_append]
  have hz : ∀ k, (List.replicate k '0').foldl (fun a c => 16 * a + hexVal c) 0 = 0 := by
    intro k
    induction k with
    | zero => rfl
    | succ m ih => simpa [List.replicate_succ, hexVal] using ih
  simp only [String.mk, hz]
  exact parseHex_hexNat n

/-! ## The indent writer (`BinaryReaderLogging::WriteIndent`)

```
static char s_indent[] = "<142 spaces>";
static const size_t s_indent_len = sizeof(s_indent) - 1;   // = 142
size_t i = indent_;
while (i > s_indent_len) {
  stream_->WriteData(s_indent, s_indent_len);
  i -= s_indent_len;
}
if (i > 0) {
  stream_->WriteData(s_indent, indent_);   // note: indent_, not i
}
```

`WriteData(s_indent, n)` emits `n` bytes starting at the buffer; for
`n > 142` that reads past the end of the 142-byte buffer, which is undefined
in the source — those bytes are marked `'?'` in the model. -/

/-- `sizeof(s_indent) - 1`: the static padding buffer holds 142 spaces. -/
def s_indent_len : Nat := 142

/-- A string of `n` spaces. -/
def spaces (n : Nat) : String := String.mk (List.replicate n ' ')

/-- The bytes emitted by `WriteData(s_indent, n)`: `min n 142` spaces from
the buffer, then `n - 142` out-of-bounds bytes (undefined in the source,
marked `'?'` here). -/
def bufBytes (n : Nat) : String :=
  String.mk (List.replicate (min n s_indent_len) ' ' ++
    List.replicate (n - s_indent_len) '?')

/-- The `while`/`if` of `WriteIndent`, with the loop variable `i` also used
as structural fuel (each iteration decreases `i` by 142 ≥ 1, so `i` bounds
the iteration count).  `indent0` is the member `indent_`, which the source
passes to the final `WriteData` in place of the remaining count `i`. -/
def writeIndentStr (indent0 : Nat) : Nat → Nat → String
  | 0, _ => ""
  | fuel + 1, i =>
    if s_indent_len < i then
      bufBytes s_indent_len ++ writeIndentStr indent0 fuel (i - s_indent_len)
    else if 0 < i then bufBytes indent0
    else ""

/-- `BinaryReaderLogging::WriteIndent` for depth `ind`. -/
def writeIndent (ind : Nat) : String := writeIndentStr ind ind ind

theorem bufBytes_of_le (n : Nat) (h : n ≤ s_indent_len) : bufBytes n = spaces n := by
  unfold bufBytes spaces
  rw [Nat.min_eq_left h, Nat.sub_eq_zero_of_le h, List.replicate_zero, List.append_nil]

/-- For depths that fit in the buffer the indent prefix is exactly `ind`
spaces. -/
theorem writeIndent_of_le (ind : Nat) (h : ind ≤ s_indent_len) :
    writeIndent ind = spaces ind := by
  match ind, h with
  | 0, _ => rfl
  | n + 1, h =>
      unfold writeIndent writeIndentStr
      rw [if_neg (by omega), if_pos (by omega)]
      exact bufBytes_of_le _ h

theorem length_mk (l : List Char) : (String.mk l).length = l.length := rfl

theorem length_append (s t : String) : (s ++ t).length = s.length + t.length := by
  show (s ++ t).data.length = s.data.length + t.data.length
  rw [string_append_data, List.length_append]

theorem bufBytes_length (n : Nat) :
    (bufBytes n).length = min n s_indent_len + (n - s_indent_len) := by
  simp [bufBytes, length_mk]

theorem nlCount_bufBytes (n : Nat) : nlCount (bufBytes n) = 0 := by
  simp [bufBytes, nlCount, List.count_append, List.count_replicate]

theorem nlCount_spaces (n : Nat) : nlCount (spaces n) = 0 := by
  simp [spaces, nlCount, List.count_replicate]

theorem nlCount_writeIndentStr (indent0 : Nat) :
    ∀ fuel i, nlCount (writeIndentStr indent0 fuel i) = 0 := by
  intro fuel
  induction fuel with
  | zero => intro i; rfl
  | succ f ih =>
      intro i
      unfold writeIndentStr
      split
      · rw [nlCount_append, nlCount_bufBytes, ih]
      · split
        · exact nlCount_bufBytes _
        · rfl

theorem nlCount_writeIndent (ind : Nat) : nlCount (writeIndent ind) = 0 :=
  nlCount_writeIndentStr ind ind ind

/-! ## Domain values carried by events -/

/-- `wabt::Result`: binary success/failure returned by every delegate
method (`OnError` returns `bool`, represented the same way). -/
inductive Result
  | ok
  | error
deriving DecidableEq, Repr

/-- Modelled from the spec: the primitive value-type tags and their
canonical short names (`GetTypeName` and the `Type` enum live outside this
repository; the spec calls for "the primitive type's canonical short
name"). -/
inductive PrimType
  | i32
  | i64
  | f32
  | f64
  | v128
  | funcref
  | anyref
  | exnref
deriving DecidableEq, Repr

/-- Modelled from the spec: canonical short name of a primitive type. -/
def PrimType.name : PrimType → String
  | .i32 => "i32"
  | .i64 => "i64"
  | .f32 => "f32"
  | .f64 => "f64"
  | .v128 => "v128"
  | .funcref => "funcref"
  | .anyref => "anyref"
  | .exnref => "exnref"

/-- A `wabt::Type`: either a primitive value-type tag or a non-negative
index referring to a declared function signature (`IsTypeIndex`). -/
inductive TypeDesc
  | prim (p : PrimType)
  | funcIndex (i : Nat)
deriving DecidableEq, Repr

/-- `wabt::Limits`: `uint64_t initial, max; bool has_max` (the struct lives
outside this repository; the printed fields are the ones used here). -/
structure Limits where
  initial : Nat
  max : Nat
  has_max : Bool
deriving DecidableEq, Repr

/-- `wabt::v128`: four 32-bit lanes `v[0] .. v[3]`. -/
structure V128 where
  v0 : Nat
  v1 : Nat
  v2 : Nat
  v3 : Nat
deriving DecidableEq, Repr

/-- Modelled from the spec: an opcode as consumed by the logger —
`Opcode::GetName()` and `Opcode::GetCode()` live outside this repository,
so an opcode is carried as its name and numeric code. -/
structure Opcode where
  name : String
  code : Nat
deriving DecidableEq, Repr

/-- Modelled from the spec: an `ExternalKind` as consumed by the logger —
only `GetKindName(kind)` is used, so the kind is carried as its name. -/
structure ExternalKind where
  name : String
deriving DecidableEq, Repr

/-- Modelled from the spec: a `RelocType` carried as its
`GetRelocTypeName` rendering. -/
structure RelocType where
  name : String
deriving DecidableEq, Repr

/-- Modelled from the spec: a `SymbolType` carried as its
`GetSymbolTypeName` rendering. -/
structure SymbolType where
  name : String
deriving DecidableEq, Repr

/-! ## Value formatting (`LogType`, `LogTypes`, `SPrintLimits`) -/

/-- `mutable_ ? "true" : "false"` and friends. -/
def boolStr (b : Bool) : String := if b then "true" else "false"

/-- `BinaryReaderLogging::LogType`: a type index prints as
`funcidx[%d]` (via `static_cast<int>`), a primitive type prints its
canonical name. -/
def logType : TypeDesc → String
  | .funcIndex i => "funcidx[" ++ decU32AsI32 i ++ "]"
  | .prim p => p.name

/-- `GetTypeName` at the call sites that print a type directly (table
element types, global/local types): the primitive type's name. -/
def getTypeName (p : PrimType) : String := p.name

/-- The comma-separated element rendering of `LogTypes`' loop. -/
def logTypesAux : List TypeDesc → String
  | [] => ""
  | [t] => logType t
  | t :: rest => logType t ++ ", " ++ logTypesAux rest

/-- `BinaryReaderLogging::LogTypes`: bracketed comma-separated types. -/
def logTypes (ts : List TypeDesc) : String := "[" ++ logTypesAux ts ++ "]"

/-- The loop in `OnBrTableExpr` printing the target depths separated by
`", "`. -/
def sepDecNats : List Nat → String
  | [] => ""
  | [n] => decNat n
  | n :: rest => decNat n ++ ", " ++ sepDecNats rest

/-- `SPrintLimits`: `initial: %" PRIu64 "` plus `, max: %" PRIu64 "` when
`has_max` is set. -/
def sprintLimits (l : Limits) : String :=
  if l.has_max then
    "initial: " ++ decNat l.initial ++ ", max: " ++ decNat l.max
  else
    "initial: " ++ decNat l.initial

/-! ## The macro-generated event families

One enumeration per `DEFINE_*` macro family, listing exactly the names the
macro is instantiated with in the source, plus the name (and argument
descriptions, where the macro takes them) used in the format string. -/

/-- `DEFINE_BEGIN` instantiations (log, then `Indent()`). -/
inductive DefBeginKind
  | typeSection
  | importSection
  | functionSection
  | tableSection
  | memorySection
  | globalSection
  | exportSection
  | startSection
  | codeSection
  | elemSection
  | dataSection
  | dataCountSection
  | namesSection
  | relocSection
  | dylinkSection
  | linkingSection
  | eventSection
deriving DecidableEq, Repr

def DefBeginKind.name : DefBeginKind → String
  | .typeSection => "BeginTypeSection"
  | .importSection => "BeginImportSection"
  | .functionSection => "BeginFunctionSection"
  | .tableSection => "BeginTableSection"
  | .memorySection => "BeginMemorySection"
  | .globalSection => "BeginGlobalSection"
  | .exportSection => "BeginExportSection"
  | .startSection => "BeginStartSection"
  | .codeSection => "BeginCodeSection"
  | .elemSection => "BeginElemSection"
  | .dataSection => "BeginDataSection"
  | .dataCountSection => "BeginDataCountSection"
  | .namesSection => "BeginNamesSection"
  | .relocSection => "BeginRelocSection"
  | .dylinkSection => "BeginDylinkSection"
  | .linkingSection => "BeginLinkingSection"
  | .eventSection => "BeginEventSection"

/-- `DEFINE_END` instantiations (`Dedent()`, then log the bare name). -/
inductive DefEndKind
  | endModule
  | endCustomSection
  | endTypeSection
  | endImportSection
  | endFunctionSection
  | endTableSection
  | endMemorySection
  | endGlobalSection
  | endExportSection
  | endStartSection
  | endCodeSection
  | endElemSection
  | endDataSection
  | endDataCountSection
  | endNamesSection
  | endRelocSection
  | endDylinkSection
  | endLinkingSection
  | endEventSection
deriving DecidableEq, Repr

def DefEndKind.name : DefEndKind → String
  | .endModule => "EndModule"
  | .endCustomSection => "EndCustomSection"
  | .endTypeSection => "EndTypeSection"
  | .endImportSection => "EndImportSection"
  | .endFunctionSection => "EndFunctionSection"
  | .endTableSection => "EndTableSection"
  | .endMemorySection => "EndMemorySection"
  | .endGlobalSection => "EndGlobalSection"
  | .endExportSection => "EndExportSection"
  | .endStartSection => "EndStartSection"
  | .endCodeSection => "EndCodeSection"
  | .endElemSection => "EndElemSection"
  | .endDataSection => "EndDataSection"
  | .endDataCountSection => "EndDataCountSection"
  | .endNamesSection => "EndNamesSection"
  | .endRelocSection => "EndRelocSection"
  | .endDylinkSection => "EndDylinkSection"
  | .endLinkingSection => "EndLinkingSection"
  | .endEventSection => "EndEventSection"

/-- The `End*Section` kind that closes each `Begin*` event
(`BeginModule`/`BeginCustomSection` are handled separately). -/
def DefBeginKind.endKind : DefBeginKind → DefEndKind
  | .typeSection => .endTypeSection
  | .importSection => .endImportSection
  | .functionSection => .endFunctionSection
  | .tableSection => .endTableSection
  | .memorySection => .endMemorySection
  | .globalSection => .endGlobalSection
  | .exportSection => .endExportSection
  | .startSection => .endStartSection
  | .codeSection => .endCodeSection
  | .elemSection => .endElemSection
  | .dataSection => .endDataSection
  | .dataCountSection => .endDataCountSection
  | .namesSection => .endNamesSection
  | .relocSection => .endRelocSection
  | .dylinkSection => .endDylinkSection
  | .linkingSection => .endLinkingSection
  | .eventSection => .endEventSection

/-- `DEFINE_INDEX` instantiations (`name(%" PRIindex ")`). -/
inductive DefIndexKind
  | onTypeCount
  | onImportCount
  | onFunctionCount
  | onTableCount
  | onMemoryCount
  | onGlobalCount
  | beginGlobalInitExpr
  | endGlobalInitExpr
  | endGlobal
  | onExportCount
  | onStartFunction
  | onFunctionBodyCount
  | endFunctionBody
  | onLocalDeclCount
  | onDataDropExpr
  | onMemoryInitExpr
  | onElemDropExpr
  | onTableInitExpr
  | onTableSetExpr
  | onTableGetExpr
  | onTableGrowExpr
  | onTableSizeExpr
  | onElemSegmentCount
  | beginElemSegmentInitExpr
  | endElemSegmentInitExpr
  | onElemSegmentElemExprRefNull
  | endElemSegment
  | onDataSegmentCount
  | beginDataSegmentInitExpr
  | endDataSegmentInitExpr
  | endDataSegment
  | onDataCount
  | onFunctionNamesCount
  | onLocalNameFunctionCount
  | onDylinkNeededCount
  | onSymbolCount
  | onSegmentInfoCount
  | onInitFunctionCount
  | onComdatCount
  | onEventCount
deriving DecidableEq, Repr

def DefIndexKind.name : DefIndexKind → String
  | .onTypeCount => "OnTypeCount"
  | .onImportCount => "OnImportCount"
  | .onFunctionCount => "OnFunctionCount"
  | .onTableCount => "OnTableCount"
  | .onMemoryCount => "OnMemoryCount"
  | .onGlobalCount => "OnGlobalCount"
  | .beginGlobalInitExpr => "BeginGlobalInitExpr"
  | .endGlobalInitExpr => "EndGlobalInitExpr"
  | .endGlobal => "EndGlobal"
  | .onExportCount => "OnExportCount"
  | .onStartFunction => "OnStartFunction"
  | .onFunctionBodyCount => "OnFunctionBodyCount"
  | .endFunctionBody => "EndFunctionBody"
  | .onLocalDeclCount => "OnLocalDeclCount"
  | .onDataDropExpr => "OnDataDropExpr"
  | .onMemoryInitExpr => "OnMemoryInitExpr"
  | .onElemDropExpr => "OnElemDropExpr"
  | .onTableInitExpr => "OnTableInitExpr"
  | .onTableSetExpr => "OnTableSetExpr"
  | .onTableGetExpr => "OnTableGetExpr"
  | .onTableGrowExpr => "OnTableGrowExpr"
  | .onTableSizeExpr => "OnTableSizeExpr"
  | .onElemSegmentCount => "OnElemSegmentCount"
  | .beginElemSegmentInitExpr => "BeginElemSegmentInitExpr"
  | .endElemSegmentInitExpr => "EndElemSegmentInitExpr"
  | .onElemSegmentElemExprRefNull => "OnElemSegmentElemExpr_RefNull"
  | .endElemSegment => "EndElemSegment"
  | .onDataSegmentCount => "OnDataSegmentCount"
  | .beginDataSegmentInitExpr => "BeginDataSegmentInitExpr"
  | .endDataSegmentInitExpr => "EndDataSegmentInitExpr"
  | .endDataSegment => "EndDataSegment"
  | .onDataCount => "OnDataCount"
  | .onFunctionNamesCount => "OnFunctionNamesCount"
  | .onLocalNameFunctionCount => "OnLocalNameFunctionCount"
  | .onDylinkNeededCount => "OnDylinkNeededCount"
  | .onSymbolCount => "OnSymbolCount"
  | .onSegmentInfoCount => "OnSegmentInfoCount"
  | .onInitFunctionCount => "OnInitFunctionCount"
  | .onComdatCount => "OnComdatCount"
  | .onEventCount => "OnEventCount"

/-- `DEFINE_INDEX_DESC` instantiations (`name(desc: %" PRIindex ")`). -/
inductive DefIndexDescKind
  | onCallExpr
  | onGlobalGetExpr
  | onGlobalSetExpr
  | onLocalGetExpr
  | onLocalSetExpr
  | onLocalTeeExpr
  | onReturnCallExpr
  | onThrowExpr
deriving DecidableEq, Repr

def DefIndexDescKind.name : DefIndexDescKind → String
  | .onCallExpr => "OnCallExpr"
  | .onGlobalGetExpr => "OnGlobalGetExpr"
  | .onGlobalSetExpr => "OnGlobalSetExpr"
  | .onLocalGetExpr => "OnLocalGetExpr"
  | .onLocalSetExpr => "OnLocalSetExpr"
  | .onLocalTeeExpr => "OnLocalTeeExpr"
  | .onReturnCallExpr => "OnReturnCallExpr"
  | .onThrowExpr => "OnThrowExpr"

def DefIndexDescKind.desc : DefIndexDescKind → String
  | .onCallExpr => "func_index"
  | .onGlobalGetExpr => "index"
  | .onGlobalSetExpr => "index"
  | .onLocalGetExpr => "index"
  | .onLocalSetExpr => "index"
  | .onLocalTeeExpr => "index"
  | .onReturnCallExpr => "func_index"
  | .onThrowExpr => "event_index"

/-- `DEFINE_INDEX_INDEX` instantiations
(`name(desc0: %" PRIindex ", desc1: %" PRIindex ")`). -/
inductive DefIndexIndexKind
  | onFunction
  | onBrOnExnExpr
  | onCallIndirectExpr
  | onReturnCallIndirectExpr
  | onElemSegmentElemExprCount
  | onElemSegmentElemExprRefFunc
  | onLocalNameLocalCount
  | onInitExprGlobalGetExpr
  | onEventType
deriving DecidableEq, Repr

def DefIndexIndexKind.name : DefIndexIndexKind → String
  | .onFunction => "OnFunction"
  | .onBrOnExnExpr => "OnBrOnExnExpr"
  | .onCallIndirectExpr => "OnCallIndirectExpr"
  | .onReturnCallIndirectExpr => "OnReturnCallIndirectExpr"
  | .onElemSegmentElemExprCount => "OnElemSegmentElemExprCount"
  | .onElemSegmentElemExprRefFunc => "OnElemSegmentElemExpr_RefFunc"
  | .onLocalNameLocalCount => "OnLocalNameLocalCount"
  | .onInitExprGlobalGetExpr => "OnInitExprGlobalGetExpr"
  | .onEventType => "OnEventType"

def DefIndexIndexKind.desc0 : DefIndexIndexKind → String
  | .onFunction => "index"
  | .onBrOnExnExpr => "depth"
  | .onCallIndirectExpr => "sig_index"
  | .onReturnCallIndirectExpr => "sig_index"
  | .onElemSegmentElemExprCount => "index"
  | .onElemSegmentElemExprRefFunc => "index"
  | .onLocalNameLocalCount => "index"
  | .onInitExprGlobalGetExpr => "index"
  | .onEventType => "index"

def DefIndexIndexKind.desc1 : DefIndexIndexKind → String
  | .onFunction => "sig_index"
  | .onBrOnExnExpr => "event_index"
  | .onCallIndirectExpr => "table_index"
  | .onReturnCallIndirectExpr => "table_index"
  | .onElemSegmentElemExprCount => "count"
  | .onElemSegmentElemExprRefFunc => "func_index"
  | .onLocalNameLocalCount => "count"
  | .onInitExprGlobalGetExpr => "global_index"
  | .onEventType => "sig_index"

/-- `DEFINE_OPCODE` instantiations (`name("%s" (%u))`). -/
inductive DefOpcodeKind
  | onBinaryExpr
  | onCompareExpr
  | onConvertExpr
  | onUnaryExpr
  | onTernaryExpr
deriving DecidableEq, Repr

def DefOpcodeKind.name : DefOpcodeKind → String
  | .onBinaryExpr => "OnBinaryExpr"
  | .onCompareExpr => "OnCompareExpr"
  | .onConvertExpr => "OnConvertExpr"
  | .onUnaryExpr => "OnUnaryExpr"
  | .onTernaryExpr => "OnTernaryExpr"

/-- `DEFINE_LOAD_STORE_OPCODE` instantiations
(`name(opcode: "%s" (%u), align log2: %u, offset: %" PRIaddress ")`). -/
inductive DefLoadStoreKind
  | onAtomicLoadExpr
  | onAtomicRmwExpr
  | onAtomicRmwCmpxchgExpr
  | onAtomicStoreExpr
  | onAtomicWaitExpr
  | onAtomicNotifyExpr
  | onLoadExpr
  | onStoreExpr
deriving DecidableEq, Repr

def DefLoadStoreKind.name : DefLoadStoreKind → String
  | .onAtomicLoadExpr => "OnAtomicLoadExpr"
  | .onAtomicRmwExpr => "OnAtomicRmwExpr"
  | .onAtomicRmwCmpxchgExpr => "OnAtomicRmwCmpxchgExpr"
  | .onAtomicStoreExpr => "OnAtomicStoreExpr"
  | .onAtomicWaitExpr => "OnAtomicWaitExpr"
  | .onAtomicNotifyExpr => "OnAtomicNotifyExpr"
  | .onLoadExpr => "OnLoadExpr"
  | .onStoreExpr => "OnStoreExpr"

/-- `DEFINE0` instantiations (`name` alone on the line). -/
inductive DefZeroKind
  | onCatchExpr
  | onDropExpr
  | onElseExpr
  | onEndExpr
  | onMemoryCopyExpr
  | onMemoryFillExpr
  | onMemoryGrowExpr
  | onMemorySizeExpr
  | onTableCopyExpr
  | onRefNullExpr
  | onRefIsNullExpr
  | onNopExpr
  | onRethrowExpr
  | onReturnExpr
  | onSelectExpr
  | onUnreachableExpr
deriving DecidableEq, Repr

def DefZeroKind.name : DefZeroKind → String
  | .onCatchExpr => "OnCatchExpr"
  | .onDropExpr => "OnDropExpr"
  | .onElseExpr => "OnElseExpr"
  | .onEndExpr => "OnEndExpr"
  | .onMemoryCopyExpr => "OnMemoryCopyExpr"
  | .onMemoryFillExpr => "OnMemoryFillExpr"
  | .onMemoryGrowExpr => "OnMemoryGrowExpr"
  | .onMemorySizeExpr => "OnMemorySizeExpr"
  | .onTableCopyExpr => "OnTableCopyExpr"
  | .onRefNullExpr => "OnRefNullExpr"
  | .onRefIsNullExpr => "OnRefIsNullExpr"
  | .onNopExpr => "OnNopExpr"
  | .onRethrowExpr => "OnRethrowExpr"
  | .onReturnExpr => "OnReturnExpr"
  | .onSelectExpr => "OnSelectExpr"
  | .onUnreachableExpr => "OnUnreachableExpr"

/-! ## The event vocabulary

One constructor per `BinaryReaderLogging` method in the source file; the
macro-generated families are grouped under one constructor each, with the
instantiated name carried as a kind value. -/

inductive Event
  | onError (message : String)
  | onSetState (state : Nat)
  | beginModule (version : Nat)
  | beginSection (sectionIndex : Nat) (sectionType : Nat) (size : Nat)
  | beginCustomSection (size : Nat) (sectionName : String)
  | onType (index : Nat) (paramTypes : List TypeDesc) (resultTypes : List TypeDesc)
  | onImport (index : Nat) (moduleName : String) (fieldName : String)
  | onImportFunc (importIndex : Nat) (moduleName fieldName : String)
      (funcIndex sigIndex : Nat)
  | onImportTable (importIndex : Nat) (moduleName fieldName : String)
      (tableIndex : Nat) (elemType : PrimType) (elemLimits : Limits)
  | onImportMemory (importIndex : Nat) (moduleName fieldName : String)
      (memoryIndex : Nat) (pageLimits : Limits)
  | onImportGlobal (importIndex : Nat) (moduleName fieldName : String)
      (globalIndex : Nat) (type : PrimType) (isMutable : Bool)
  | onImportEvent (importIndex : Nat) (moduleName fieldName : String)
      (eventIndex sigIndex : Nat)
  | onTable (index : Nat) (elemType : PrimType) (elemLimits : Limits)
  | onMemory (index : Nat) (pageLimits : Limits)
  | beginGlobal (index : Nat) (type : PrimType) (isMutable : Bool)
  | onExport (index : Nat) (kind : ExternalKind) (itemIndex : Nat) (name : String)
  | beginFunctionBody (value : Nat) (size : Nat)
  | onLocalDecl (declIndex count : Nat) (type : PrimType)
  | onBlockExpr (sigType : TypeDesc)
  | onBrExpr (depth : Nat)
  | onBrIfExpr (depth : Nat)
  | onBrTableExpr (targetDepths : List Nat) (defaultTargetDepth : Nat)
  | onF32ConstExpr (valueBits : Nat)
  | onF64ConstExpr (valueBits : Nat)
  | onV128ConstExpr (valueBits : V128)
  | onI32ConstExpr (value : Nat)
  | onI64ConstExpr (value : Nat)
  | onIfExpr (sigType : TypeDesc)
  | onLoopExpr (sigType : TypeDesc)
  | onTryExpr (sigType : TypeDesc)
  | onSimdLaneOpExpr (opcode : Opcode) (value : Nat)
  | onSimdShuffleOpExpr (opcode : Opcode) (value : V128)
  | beginElemSegment (index tableIndex : Nat) (passive : Bool) (elemType : PrimType)
  | onDataSegmentData (index : Nat) (data : Nat) (size : Nat)
  | onModuleNameSubsection (index : Nat) (nameType : Nat) (subsectionSize : Nat)
  | onModuleName (name : String)
  | onFunctionNameSubsection (index : Nat) (nameType : Nat) (subsectionSize : Nat)
  | onFunctionName (index : Nat) (name : String)
  | onLocalNameSubsection (index : Nat) (nameType : Nat) (subsectionSize : Nat)
  | onLocalName (funcIndex localIndex : Nat) (name : String)
  | onInitExprF32ConstExpr (index : Nat) (valueBits : Nat)
  | onInitExprF64ConstExpr (index : Nat) (valueBits : Nat)
  | onInitExprV128ConstExpr (index : Nat) (valueBits : V128)
  | onInitExprI32ConstExpr (index : Nat) (value : Nat)
  | onInitExprI64ConstExpr (index : Nat) (value : Nat)
  | onDylinkInfo (memSize memAlign tableSize tableAlign : Nat)
  | onDylinkNeeded (soName : String)
  | onRelocCount (count sectionIndex : Nat)
  | onReloc (type : RelocType) (offset index addend : Nat)
  | onSymbol (symbolIndex : Nat) (type : SymbolType) (flags : Nat)
  | onDataSymbol (index flags : Nat) (name : String) (segment offset size : Nat)
  | onFunctionSymbol (index flags : Nat) (name : String) (funcIndex : Nat)
  | onGlobalSymbol (index flags : Nat) (name : String) (globalIndex : Nat)
  | onSectionSymbol (index flags sectionIndex : Nat)
  | onEventSymbol (index flags : Nat) (name : String) (eventIndex : Nat)
  | onSegmentInfo (index : Nat) (name : String) (alignment flags : Nat)
  | onInitFunction (priority funcIndex : Nat)
  | onComdatBegin (name : String) (flags count : Nat)
  | onComdatEntry (kind : Nat) (index : Nat)
  | defBegin (k : DefBeginKind) (size : Nat)
  | defEnd (k : DefEndKind)
  | defIndex (k : DefIndexKind) (value : Nat)
  | defIndexDesc (k : DefIndexDescKind) (value : Nat)
  | defIndexIndex (k : DefIndexIndexKind) (value0 value1 : Nat)
  | beginDataSegment (index memoryIndex : Nat) (passive : Bool)
  | defOpcode (k : DefOpcodeKind) (opcode : Opcode)
  | defLoadStore (k : DefLoadStoreKind) (opcode : Opcode)
      (alignmentLog2 : Nat) (offset : Nat)
  | def0 (k : DefZeroKind)
  | onOpcode (opcode : Opcode)
  | onOpcodeBare
  | onOpcodeIndex (value : Nat)
  | onOpcodeIndexIndex (value value2 : Nat)
  | onOpcodeUint32 (value : Nat)
  | onOpcodeUint32Uint32 (value value2 : Nat)
  | onOpcodeUint64 (value : Nat)
  | onOpcodeF32 (value : Nat)
  | onOpcodeF64 (value : Nat)
  | onOpcodeV128 (value : V128)
  | onOpcodeBlockSig (sigType : TypeDesc)
  | onEndFunc

/-- One observable step of the decorator: bytes appended to the output
stream, or an invocation of the identically-named method on the wrapped
delegate. -/
inductive Action
  | write (s : String)
  | call (e : Event)

/-- The wrapped `BinaryReaderDelegate* reader_`: a result for each event. -/
def Consumer := Event → Result

/-- What one decorator method produces: the new indent depth, the ordered
actions (stream writes, then the delegate call), and the returned result. -/
structure StepOut where
  indent : Int
  acts : List Action
  res : Result

/-- `#define INDENT_SIZE 2` -/
def INDENT_SIZE : Int := 2

/-- `LOGF(...)`: `WriteIndent()` followed by the formatted bytes. -/
def logf (ind : Int) (body : String) : String := writeIndent ind.toNat ++ body

/-- `BinaryReaderLogging::Indent`: `indent_ += INDENT_SIZE;`. -/
def Indent (ind : Int) : Int := ind + INDENT_SIZE

/-- `BinaryReaderLogging::Dedent`: `indent_ -= INDENT_SIZE;` followed by
`assert(indent_ >= 0);`. -/
def Dedent (ind : Int) : Int := ind - INDENT_SIZE

/-- The `assert(indent_ >= 0)` in `Dedent`, evaluated on the value after the
subtraction. -/
def dedentAssertHolds (ind : Int) : Prop := 0 ≤ Dedent ind

/-- One decorator method invocation, transcribed handler by handler from
the source.  `g32`/`g64` are the libc `%g` renderings of the float whose
bits are the argument (modelled from the spec: the decimal approximation
"for human scanning", produced outside this repository).  `ind` is the
`indent_` member on entry; the branch bodies mirror the statement order of
each C++ method: `LOGF` (with `Indent()`/`Dedent()` where the source has
them) and then the forwarding call `reader_->Name(args)` whose result is
returned. -/
def logStep (g32 g64 : Nat → String) (c : Consumer) (ind : Int) : Event → StepOut
  | .onError message =>
      ⟨ind, [.call (.onError message)], c (.onError message)⟩
  | .onSetState state =>
      ⟨ind, [.call (.onSetState state)], c (.onSetState state)⟩
  | .beginModule version =>
      ⟨Indent ind,
        [.write (logf ind ("BeginModule(version: " ++ decNat version ++ ")\n")),
          .call (.beginModule version)],
        c (.beginModule version)⟩
  | .beginSection sectionIndex sectionType size =>
      ⟨ind, [.call (.beginSection sectionIndex sectionType size)],
        c (.beginSection sectionIndex sectionType size)⟩
  | .beginCustomSection size sectionName =>
      ⟨Indent ind,
        [.write (logf ind ("BeginCustomSection('" ++ sectionName ++ "', size: " ++
          decNat size ++ ")\n")),
          .call (.beginCustomSection size sectionName)],
        c (.beginCustomSection size sectionName)⟩
  | .onType index paramTypes resultTypes =>
      ⟨ind,
        [.write (logf ind ("OnType(index: " ++ decNat index ++ ", params: " ++
          logTypes paramTypes ++ ", results: " ++ logTypes resultTypes ++ ")\n")),
          .call (.onType index paramTypes resultTypes)],
        c (.onType index paramTypes resultTypes)⟩
  | .onImport index moduleName fieldName =>
      ⟨ind,
        [.write (logf ind ("OnImport(index: " ++ decNat index ++ ", module: \"" ++
          moduleName ++ "\", field: \"" ++ fieldName ++ "\")\n")),
          .call (.onImport index moduleName fieldName)],
        c (.onImport index moduleName fieldName)⟩
  | .onImportFunc importIndex moduleName fieldName funcIndex sigIndex =>
      ⟨ind,
        [.write (logf ind ("OnImportFunc(import_index: " ++ decNat importIndex ++
          ", func_index: " ++ decNat funcIndex ++ ", sig_index: " ++
          decNat sigIndex ++ ")\n")),
          .call (.onImportFunc importIndex moduleName fieldName funcIndex sigIndex)],
        c (.onImportFunc importIndex moduleName fieldName funcIndex sigIndex)⟩
  | .onImportTable importIndex moduleName fieldName tableIndex elemType elemLimits =>
      ⟨ind,
        [.write (logf ind ("OnImportTable(import_index: " ++ decNat importIndex ++
          ", table_index: " ++ decNat tableIndex ++ ", elem_type: " ++
          getTypeName elemType ++ ", " ++ sprintLimits elemLimits ++ ")\n")),
          .call (.onImportTable importIndex moduleName fieldName tableIndex
            elemType elemLimits)],
        c (.onImportTable importIndex moduleName fieldName tableIndex elemType
          elemLimits)⟩
  | .onImportMemory importIndex moduleName fieldName memoryIndex pageLimits =>
      ⟨ind,
        [.write (logf ind ("OnImportMemory(import_index: " ++ decNat importIndex ++
          ", memory_index: " ++ decNat memoryIndex ++ ", " ++
          sprintLimits pageLimits ++ ")\n")),
          .call (.onImportMemory importIndex moduleName fieldName memoryIndex
            pageLimits)],
        c (.onImportMemory importIndex moduleName fieldName memoryIndex pageLimits)⟩
  | .onImportGlobal importIndex moduleName fieldName globalIndex type isMutable =>
      ⟨ind,
        [.write (logf ind ("OnImportGlobal(import_index: " ++ decNat importIndex ++
          ", global_index: " ++ decNat globalIndex ++ ", type: " ++
          getTypeName type ++ ", mutable: " ++ boolStr isMutable ++ ")\n")),
          .call (.onImportGlobal importIndex moduleName fieldName globalIndex
            type isMutable)],
        c (.onImportGlobal importIndex moduleName fieldName globalIndex type
          isMutable)⟩
  | .onImportEvent importIndex moduleName fieldName eventIndex sigIndex =>
      ⟨ind,
        [.write (logf ind ("OnImportEvent(import_index: " ++ decNat importIndex ++
          ", event_index: " ++ decNat eventIndex ++ ", sig_index: " ++
          decNat sigIndex ++ ")\n")),
          .call (.onImportEvent importIndex moduleName fieldName eventIndex
            sigIndex)],
        c (.onImportEvent importIndex moduleName fieldName eventIndex sigIndex)⟩
  | .onTable index elemType elemLimits =>
      ⟨ind,
        [.write (logf ind ("OnTable(index: " ++ decNat index ++ ", elem_type: " ++
          getTypeName elemType ++ ", " ++ sprintLimits elemLimits ++ ")\n")),
          .call (.onTable index elemType elemLimits)],
        c (.onTable index elemType elemLimits)⟩
  | .onMemory index pageLimits =>
      ⟨ind,
        [.write (logf ind ("OnMemory(index: " ++ decNat index ++ ", " ++
          sprintLimits pageLimits ++ ")\n")),
          .call (.onMemory index pageLimits)],
        c (.onMemory index pageLimits)⟩
  | .beginGlobal index type isMutable =>
      ⟨ind,
        [.write (logf ind ("BeginGlobal(index: " ++ decNat index ++ ", type: " ++
          getTypeName type ++ ", mutable: " ++ boolStr isMutable ++ ")\n")),
          .call (.beginGlobal index type isMutable)],
        c (.beginGlobal index type isMutable)⟩
  | .onExport index kind itemIndex name =>
      ⟨ind,
        [.write (logf ind ("OnExport(index: " ++ decNat index ++ ", kind: " ++
          kind.name ++ ", item_index: " ++ decNat itemIndex ++ ", name: \"" ++
          name ++ "\")\n")),
          .call (.onExport index kind itemIndex name)],
        c (.onExport index kind itemIndex name)⟩
  | .beginFunctionBody value size =>
      ⟨ind,
        [.write (logf ind ("BeginFunctionBody(" ++ decNat value ++ ", size:" ++
          decNat size ++ ")\n")),
          .call (.beginFunctionBody value size)],
        c (.beginFunctionBody value size)⟩
  | .onLocalDecl declIndex count type =>
      ⟨ind,
        [.write (logf ind ("OnLocalDecl(index: " ++ decNat declIndex ++
          ", count: " ++ decNat count ++ ", type: " ++ getTypeName type ++ ")\n")),
          .call (.onLocalDecl declIndex count type)],
        c (.onLocalDecl declIndex count type)⟩
  | .onBlockExpr sigType =>
      ⟨ind,
        [.write (logf ind ("OnBlockExpr(sig: " ++ logType sigType ++ ")\n")),
          .call (.onBlockExpr sigType)],
        c (.onBlockExpr sigType)⟩
  | .onBrExpr depth =>
      ⟨ind,
        [.write (logf ind ("OnBrExpr(depth: " ++ decNat depth ++ ")\n")),
          .call (.onBrExpr depth)],
        c (.onBrExpr depth)⟩
  | .onBrIfExpr depth =>
      ⟨ind,
        [.write (logf ind ("OnBrIfExpr(depth: " ++ decNat depth ++ ")\n")),
          .call (.onBrIfExpr depth)],
        c (.onBrIfExpr depth)⟩
  | .onBrTableExpr targetDepths defaultTargetDepth =>
      ⟨ind,
        [.write (logf ind ("OnBrTableExpr(num_targets: " ++
          decNat targetDepths.length ++ ", depths: [" ++
          sepDecNats targetDepths ++ "], default: " ++
          decNat defaultTargetDepth ++ ")\n")),
          .call (.onBrTableExpr targetDepths defaultTargetDepth)],
        c (.onBrTableExpr targetDepths defaultTargetDepth)⟩
  | .onF32ConstExpr valueBits =>
      ⟨ind,
        [.write (logf ind ("OnF32ConstExpr(" ++ g32 valueBits ++ " (0x04" ++
          hexNat valueBits ++ "))\n")),
          .call (.onF32ConstExpr valueBits)],
        c (.onF32ConstExpr valueBits)⟩
  | .onF64ConstExpr valueBits =>
      ⟨ind,
        [.write (logf ind ("OnF64ConstExpr(" ++ g64 valueBits ++ " (0x08" ++
          hexNat valueBits ++ "))\n")),
          .call (.onF64ConstExpr valueBits)],
        c (.onF64ConstExpr valueBits)⟩
  | .onV128ConstExpr valueBits =>
      ⟨ind,
        [.write (logf ind ("OnV128ConstExpr(0x" ++ hex8 valueBits.v0 ++ " 0x" ++
          hex8 valueBits.v1 ++ " 0x" ++ hex8 valueBits.v2 ++ " 0x" ++
          hex8 valueBits.v3 ++ ")\n")),
          .call (.onV128ConstExpr valueBits)],
        c (.onV128ConstExpr valueBits)⟩
  | .onI32ConstExpr value =>
      ⟨ind,
        [.write (logf ind ("OnI32ConstExpr(" ++ decNat value ++ " (0x" ++
          hexNat value ++ "))\n")),
          .call (.onI32ConstExpr value)],
        c (.onI32ConstExpr value)⟩
  | .onI64ConstExpr value =>
      ⟨ind,
        [.write (logf ind ("OnI64ConstExpr(" ++ decNat value ++ " (0x" ++
          hexNat value ++ "))\n")),
          .call (.onI64ConstExpr value)],
        c (.onI64ConstExpr value)⟩
  | .onIfExpr sigType =>
      ⟨ind,
        [.write (logf ind ("OnIfExpr(sig: " ++ logType sigType ++ ")\n")),
          .call (.onIfExpr sigType)],
        c (.onIfExpr sigType)⟩
  | .onLoopExpr sigType =>
      ⟨ind,
        [.write (logf ind ("OnLoopExpr(sig: " ++ logType sigType ++ ")\n")),
          .call (.onLoopExpr sigType)],
        c (.onLoopExpr sigType)⟩
  | .onTryExpr sigType =>
      ⟨ind,
        [.write (logf ind ("OnTryExpr(sig: " ++ logType sigType ++ ")\n")),
          .call (.onTryExpr sigType)],
        c (.onTryExpr sigType)⟩
  | .onSimdLaneOpExpr opcode value =>
      ⟨ind,
        [.write (logf ind ("OnSimdLaneOpExpr (lane: " ++ decNat value ++ ")\n")),
          .call (.onSimdLaneOpExpr opcode value)],
        c (.onSimdLaneOpExpr opcode value)⟩
  | .onSimdShuffleOpExpr opcode value =>
      ⟨ind,
        [.write (logf ind ("OnSimdShuffleOpExpr (lane: 0x" ++ hex8 value.v0 ++
          " " ++ hex8 value.v1 ++ " " ++ hex8 value.v2 ++ " " ++
          hex8 value.v3 ++ ")\n")),
          .call (.onSimdShuffleOpExpr opcode value)],
        c (.onSimdShuffleOpExpr opcode value)⟩
  | .beginElemSegment index tableIndex passive elemType =>
      ⟨ind,
        [.write (logf ind ("BeginElemSegment(index: " ++ decNat index ++
          ", table_index: " ++ decNat tableIndex ++ ", passive: " ++
          boolStr passive ++ ", elem_type: " ++ getTypeName elemType ++ ")\n")),
          .call (.beginElemSegment index tableIndex passive elemType)],
        c (.beginElemSegment index tableIndex passive elemType)⟩
  | .onDataSegmentData index data size =>
      ⟨ind,
        [.write (logf ind ("OnDataSegmentData(index:" ++ decNat index ++
          ", size:" ++ decNat size ++ ")\n")),
          .call (.onDataSegmentData index data size)],
        c (.onDataSegmentData index data size)⟩
  | .onModuleNameSubsection index nameType subsectionSize =>
      ⟨ind,
        [.write (logf ind ("OnModuleNameSubsection(index:" ++ decNat index ++
          ", nametype:" ++ decNat nameType ++ ", size:" ++
          decNat subsectionSize ++ ")\n")),
          .call (.onModuleNameSubsection index nameType subsectionSize)],
        c (.onModuleNameSubsection index nameType subsectionSize)⟩
  | .onModuleName name =>
      ⟨ind,
        [.write (logf ind ("OnModuleName(name: \"" ++ name ++ "\")\n")),
          .call (.onModuleName name)],
        c (.onModuleName name)⟩
  | .onFunctionNameSubsection index nameType subsectionSize =>
      ⟨ind,
        [.write (logf ind ("OnFunctionNameSubsection(index:" ++ decNat index ++
          ", nametype:" ++ decNat nameType ++ ", size:" ++
          decNat subsectionSize ++ ")\n")),
          .call (.onFunctionNameSubsection index nameType subsectionSize)],
        c (.onFunctionNameSubsection index nameType subsectionSize)⟩
  | .onFunctionName index name =>
      ⟨ind,
        [.write (logf ind ("OnFunctionName(index: " ++ decNat index ++
          ", name: \"" ++ name ++ "\")\n")),
          .call (.onFunctionName index name)],
        c (.onFunctionName index name)⟩
  | .onLocalNameSubsection index nameType subsectionSize =>
      ⟨ind,
        [.write (logf ind ("OnLocalNameSubsection(index:" ++ decNat index ++
          ", nametype:" ++ decNat nameType ++ ", size:" ++
          decNat subsectionSize ++ ")\n")),
          .call (.onLocalNameSubsection index nameType subsectionSize)],
        c (.onLocalNameSubsection index nameType subsectionSize)⟩
  | .onLocalName funcIndex localIndex name =>
      ⟨ind,
        [.write (logf ind ("OnLocalName(func_index: " ++ decNat funcIndex ++
          ", local_index: " ++ decNat localIndex ++ ", name: \"" ++ name ++
          "\")\n")),
          .call (.onLocalName funcIndex localIndex name)],
        c (.onLocalName funcIndex localIndex name)⟩
  | .onInitExprF32ConstExpr index valueBits =>
      ⟨ind,
        [.write (logf ind ("OnInitExprF32ConstExpr(index: " ++ decNat index ++
          ", value: " ++ g32 valueBits ++ " (0x04" ++ hexNat valueBits ++ "))\n")),
          .call (.onInitExprF32ConstExpr index valueBits)],
        c (.onInitExprF32ConstExpr index valueBits)⟩
  | .onInitExprF64ConstExpr index valueBits =>
      ⟨ind,
        [.write (logf ind ("OnInitExprF64ConstExpr(index: " ++ decNat index ++
          " value: " ++ g64 valueBits ++ " (0x08" ++ hexNat valueBits ++ "))\n")),
          .call (.onInitExprF64ConstExpr index valueBits)],
        c (.onInitExprF64ConstExpr index valueBits)⟩
  | .onInitExprV128ConstExpr index valueBits =>
      ⟨ind,
        [.write (logf ind ("OnInitExprV128ConstExpr(index: " ++ decNat index ++
          " value: ( 0x" ++ hex8 valueBits.v0 ++ " 0x" ++ hex8 valueBits.v1 ++
          " 0x" ++ hex8 valueBits.v2 ++ " 0x" ++ hex8 valueBits.v3 ++ "))\n")),
          .call (.onInitExprV128ConstExpr index valueBits)],
        c (.onInitExprV128ConstExpr index valueBits)⟩
  | .onInitExprI32ConstExpr index value =>
      ⟨ind,
        [.write (logf ind ("OnInitExprI32ConstExpr(index: " ++ decNat index ++
          ", value: " ++ decNat value ++ ")\n")),
          .call (.onInitExprI32ConstExpr index value)],
        c (.onInitExprI32ConstExpr index value)⟩
  | .onInitExprI64ConstExpr index value =>
      ⟨ind,
        [.write (logf ind ("OnInitExprI64ConstExpr(index: " ++ decNat index ++
          ", value: " ++ decNat value ++ ")\n")),
          .call (.onInitExprI64ConstExpr index value)],
        c (.onInitExprI64ConstExpr index value)⟩
  | .onDylinkInfo memSize memAlign tableSize tableAlign =>
      ⟨ind,
        [.write (logf ind ("OnDylinkInfo(mem_size: " ++ decNat memSize ++
          ", mem_align: " ++ decNat memAlign ++ ", table_size: " ++
          decNat tableSize ++ ", table_align: " ++ decNat tableAlign ++ ")\n")),
          .call (.onDylinkInfo memSize memAlign tableSize tableAlign)],
        c (.onDylinkInfo memSize memAlign tableSize tableAlign)⟩
  | .onDylinkNeeded soName =>
      ⟨ind,
        [.write (logf ind ("OnDylinkNeeded(name: " ++ soName ++ ")\n")),
          .call (.onDylinkNeeded soName)],
        c (.onDylinkNeeded soName)⟩
  | .onRelocCount count sectionIndex =>
      ⟨ind,
        [.write (logf ind ("OnRelocCount(count: " ++ decNat count ++
          ", section: " ++ decNat sectionIndex ++ ")\n")),
          .call (.onRelocCount count sectionIndex)],
        c (.onRelocCount count sectionIndex)⟩
  | .onReloc type offset index addend =>
      ⟨ind,
        [.write (logf ind ("OnReloc(type: " ++ type.name ++ ", offset: " ++
          decNat offset ++ ", index: " ++ decNat index ++ ", addend: " ++
          decInt (toInt32 addend) ++ ")\n")),
          .call (.onReloc type offset index addend)],
        c (.onReloc type offset index addend)⟩
  | .onSymbol symbolIndex type flags =>
      ⟨ind,
        [.write (logf ind ("OnSymbol(type: " ++ type.name ++ " flags: 0x" ++
          hexNat flags ++ ")\n")),
          .call (.onSymbol symbolIndex type flags)],
        c (.onSymbol symbolIndex type flags)⟩
  | .onDataSymbol index flags name segment offset size =>
      ⟨ind,
        [.write (logf ind ("OnDataSymbol(name: " ++ name ++ " flags: 0x" ++
          hexNat flags ++ ")\n")),
          .call (.onDataSymbol index flags name segment offset size)],
        c (.onDataSymbol index flags name segment offset size)⟩
  | .onFunctionSymbol index flags name funcIndex =>
      ⟨ind,
        [.write (logf ind ("OnFunctionSymbol(name: " ++ name ++ " flags: 0x" ++
          hexNat flags ++ " index: " ++ decNat funcIndex ++ ")\n")),
          .call (.onFunctionSymbol index flags name funcIndex)],
        c (.onFunctionSymbol index flags name funcIndex)⟩
  | .onGlobalSymbol index flags name globalIndex =>
      ⟨ind,
        [.write (logf ind ("OnGlobalSymbol(name: " ++ name ++ " flags: 0x" ++
          hexNat flags ++ " index: " ++ decNat globalIndex ++ ")\n")),
          .call (.onGlobalSymbol index flags name globalIndex)],
        c (.onGlobalSymbol index flags name globalIndex)⟩
  | .onSectionSymbol index flags sectionIndex =>
      ⟨ind,
        [.write (logf ind ("OnSectionSymbol(flags: 0x" ++ hexNat flags ++
          " index: " ++ decNat sectionIndex ++ ")\n")),
          .call (.onSectionSymbol index flags sectionIndex)],
        c (.onSectionSymbol index flags sectionIndex)⟩
  | .onEventSymbol index flags name eventIndex =>
      ⟨ind,
        [.write (logf ind ("OnEventSymbol(name: " ++ name ++ " flags: 0x" ++
          hexNat flags ++ " index: " ++ decNat eventIndex ++ ")\n")),
          .call (.onEventSymbol index flags name eventIndex)],
        c (.onEventSymbol index flags name eventIndex)⟩
  | .onSegmentInfo index name alignment flags =>
      ⟨ind,
        [.write (logf ind ("OnSegmentInfo(" ++ decU32AsI32 index ++ " name: " ++
          name ++ ", alignment: " ++ decU32AsI32 alignment ++ ", flags: 0x" ++
          hexNat flags ++ ")\n")),
          .call (.onSegmentInfo index name alignment flags)],
        c (.onSegmentInfo index name alignment flags)⟩
  | .onInitFunction priority funcIndex =>
      ⟨ind,
        [.write (logf ind ("OnInitFunction(" ++ decU32AsI32 funcIndex ++
          " priority: " ++ decU32AsI32 priority ++ ")\n")),
          .call (.onInitFunction priority funcIndex)],
        c (.onInitFunction priority funcIndex)⟩
  | .onComdatBegin name flags count =>
      ⟨ind,
        [.write (logf ind ("OnComdatBegin(" ++ name ++ ", flags: " ++
          decU32AsI32 flags ++ ", count: " ++ decNat count ++ ")\n")),
          .call (.onComdatBegin name flags count)],
        c (.onComdatBegin name flags count)⟩
  | .onComdatEntry kind index =>
      ⟨ind,
        [.write (logf ind ("OnComdatEntry(kind: " ++ decU32AsI32 kind ++
          ", index: " ++ decNat index ++ ")\n")),
          .call (.onComdatEntry kind index)],
        c (.onComdatEntry kind index)⟩
  | .defBegin k size =>
      ⟨Indent ind,
        [.write (logf ind (k.name ++ "(" ++ decNat size ++ ")\n")),
          .call (.defBegin k size)],
        c (.defBegin k size)⟩
  | .defEnd k =>
      ⟨Dedent ind,
        [.write (logf (Dedent ind) (k.name ++ "\n")),
          .call (.defEnd k)],
        c (.defEnd k)⟩
  | .defIndex k value =>
      ⟨ind,
        [.write (logf ind (k.name ++ "(" ++ decNat value ++ ")\n")),
          .call (.defIndex k value)],
        c (.defIndex k value)⟩
  | .defIndexDesc k value =>
      ⟨ind,
        [.write (logf ind (k.name ++ "(" ++ k.desc ++ ": " ++ decNat value ++
          ")\n")),
          .call (.defIndexDesc k value)],
        c (.defIndexDesc k value)⟩
  | .defIndexIndex k value0 value1 =>
      ⟨ind,
        [.write (logf ind (k.name ++ "(" ++ k.desc0 ++ ": " ++ decNat value0 ++
          ", " ++ k.desc1 ++ ": " ++ decNat value1 ++ ")\n")),
          .call (.defIndexIndex k value0 value1)],
        c (.defIndexIndex k value0 value1)⟩
  | .beginDataSegment index memoryIndex passive =>
      ⟨ind,
        [.write (logf ind ("BeginDataSegment(index: " ++ decNat index ++
          ", memory_index: " ++ decNat memoryIndex ++ ", passive: " ++
          boolStr passive ++ ")\n")),
          .call (.beginDataSegment index memoryIndex passive)],
        c (.beginDataSegment index memoryIndex passive)⟩
  | .defOpcode k opcode =>
      ⟨ind,
        [.write (logf ind (k.name ++ "(\"" ++ opcode.name ++ "\" (" ++
          decNat opcode.code ++ "))\n")),
          .call (.defOpcode k opcode)],
        c (.defOpcode k opcode)⟩
  | .defLoadStore k opcode alignmentLog2 offset =>
      ⟨ind,
        [.write (logf ind (k.name ++ "(opcode: \"" ++ opcode.name ++ "\" (" ++
          decNat opcode.code ++ "), align log2: " ++ decNat alignmentLog2 ++
          ", offset: " ++ decNat offset ++ ")\n")),
          .call (.defLoadStore k opcode alignmentLog2 offset)],
        c (.defLoadStore k opcode alignmentLog2 offset)⟩
  | .def0 k =>
      ⟨ind,
        [.write (logf ind (k.name ++ "\n")),
          .call (.def0 k)],
        c (.def0 k)⟩
  | .onOpcode opcode =>
      ⟨ind, [.call (.onOpcode opcode)], c (.onOpcode opcode)⟩
  | .onOpcodeBare =>
      ⟨ind, [.call .onOpcodeBare], c .onOpcodeBare⟩
  | .onOpcodeIndex value =>
      ⟨ind, [.call (.onOpcodeIndex value)], c (.onOpcodeIndex value)⟩
  | .onOpcodeIndexIndex value value2 =>
      ⟨ind, [.call (.onOpcodeIndexIndex value value2)],
        c (.onOpcodeIndexIndex value value2)⟩
  | .onOpcodeUint32 value =>
      ⟨ind, [.call (.onOpcodeUint32 value)], c (.onOpcodeUint32 value)⟩
  | .onOpcodeUint32Uint32 value value2 =>
      ⟨ind, [.call (.onOpcodeUint32Uint32 value value2)],
        c (.onOpcodeUint32Uint32 value value2)⟩
  | .onOpcodeUint64 value =>
      ⟨ind, [.call (.onOpcodeUint64 value)], c (.onOpcodeUint64 value)⟩
  | .onOpcodeF32 value =>
      ⟨ind, [.call (.onOpcodeF32 value)], c (.onOpcodeF32 value)⟩
  | .onOpcodeF64 value =>
      ⟨ind, [.call (.onOpcodeF64 value)], c (.onOpcodeF64 value)⟩
  | .onOpcodeV128 value =>
      ⟨ind, [.call (.onOpcodeV128 value)], c (.onOpcodeV128 value)⟩
  | .onOpcodeBlockSig sigType =>
      ⟨ind, [.call (.onOpcodeBlockSig sigType)], c (.onOpcodeBlockSig sigType)⟩
  | .onEndFunc =>
      ⟨ind, [.call .onEndFunc], c .onEndFunc⟩

/-! ## Observations of a step -/

/-- The stream writes among a list of actions, in order. -/
def writesOf (l : List Action) : List String :=
  l.filterMap fun a => match a with | .write s => some s | .call _ => none

/-- The delegate invocations among a list of actions, in order. -/
def callsOf (l : List Action) : List Event :=
  l.filterMap fun a => match a with | .write _ => none | .call e => some e

/-- All bytes a step appends to the output stream. -/
def outputOf (s : StepOut) : String := String.join (writesOf s.acts)

/-- `indent_` on construction (`indent_(0)`). -/
def initialIndent : Int := 0

/-- How each event changes `indent_`: `Indent()` on the module, custom
section, and `DEFINE_BEGIN` section events, `Dedent()` on the `DEFINE_END`
events, no change anywhere else. -/
def indentDelta : Event → Int
  | .beginModule _ => INDENT_SIZE
  | .beginCustomSection _ _ => INDENT_SIZE
  | .defBegin _ _ => INDENT_SIZE
  | .defEnd _ => -INDENT_SIZE
  | _ => 0

/-- Every handler invokes the wrapped delegate exactly once, with the very
event it received. -/
theorem logStep_calls (g32 g64 : Nat → String) (c : Consumer) (ind : Int)
    (e : Event) : callsOf (logStep g32 g64 c ind e).acts = [e] := by
  cases e <;> rfl

/-- Every handler returns the wrapped delegate's result unchanged. -/
theorem logStep_res (g32 g64 : Nat → String) (c : Consumer) (ind : Int)
    (e : Event) : (logStep g32 g64 c ind e).res = c e := by
  cases e <;> rfl

/-- The indent depth after a step. -/
theorem logStep_indent (g32 g64 : Nat → String) (c : Consumer) (ind : Int)
    (e : Event) : (logStep g32 g64 c ind e).indent = ind + indentDelta e := by
  cases e <;> simp [logStep, indentDelta] <;> rfl

/-- The bytes written by a step do not depend on the wrapped delegate. -/
theorem logStep_writes_indep (g32 g64 : Nat → String) (c c' : Consumer)
    (ind : Int) (e : Event) :
    writesOf (logStep g32 g64 c ind e).acts =
      writesOf (logStep g32 g64 c' ind e).acts := by
  cases e <;> rfl

/-- Within a step, all stream writes precede the delegate call. -/
theorem logStep_write_before_call (g32 g64 : Nat → String) (c : Consumer)
    (ind : Int) (e : Event) :
    ∃ ws : List String,
      (logStep g32 g64 c ind e).acts = ws.map Action.write ++ [Action.call e] := by
  cases e
  case onError m => exact ⟨[], rfl⟩
  all_goals first
    | exact ⟨[], rfl⟩
    | exact ⟨[_], rfl⟩

/-! ## Event sequences -/

/-- The trace accumulated while processing an event sequence in order (the
decoder invokes the decorator one event at a time). -/
def runTrace (g32 g64 : Nat → String) (c : Consumer) : Int → List Event → String
  | _, [] => ""
  | ind, e :: rest =>
      outputOf (logStep g32 g64 c ind e) ++
        runTrace g32 g64 c (logStep g32 g64 c ind e).indent rest

/-- The indent depth after processing an event sequence in order. -/
def runIndent (g32 g64 : Nat → String) (c : Consumer) : Int → List Event → Int
  | ind, [] => ind
  | ind, e :: rest => runIndent g32 g64 c (logStep g32 g64 c ind e).indent rest

/-- The `End*` event that closes a depth-increasing event, if this event is
one (`BeginModule` ↔ `EndModule`, `BeginCustomSection` ↔ `EndCustomSection`,
`Begin*Section` ↔ `End*Section`). -/
def beginEndKind : Event → Option DefEndKind
  | .beginModule _ => some .endModule
  | .beginCustomSection _ _ => some .endCustomSection
  | .defBegin k _ => some k.endKind
  | _ => none

/-- Whether an event is one of the `DEFINE_END` (depth-decreasing) events. -/
def isEndEvent : Event → Bool
  | .defEnd _ => true
  | _ => false

/-- Well-formed event sequences: every begin event is matched by exactly one
corresponding end event, in properly nested order; all other events are
leaves. -/
inductive Balanced : List Event → Prop
  | nil : Balanced []
  | leaf (e : Event) (rest : List Event) :
      beginEndKind e = none → isEndEvent e = false →
      Balanced rest → Balanced (e :: rest)
  | nest (b : Event) (k : DefEndKind) (inner rest : List Event) :
      beginEndKind b = some k →
      Balanced inner → Balanced rest →
      Balanced (b :: (inner ++ Event.defEnd k :: rest))

theorem indentDelta_of_leaf (e : Event) (h1 : beginEndKind e = none)
    (h2 : isEndEvent e = false) : indentDelta e = 0 := by
  cases e <;> first
    | rfl
    | exact Option.noConfusion h1
    | exact Bool.noConfusion h2

theorem indentDelta_of_begin (e : Event) (k : DefEndKind)
    (h : beginEndKind e = some k) : indentDelta e = INDENT_SIZE := by
  cases e <;> first
    | rfl
    | exact Option.noConfusion h

theorem runIndent_cons (g32 g64 : Nat → String) (c : Consumer) (ind : Int)
    (e : Event) (rest : List Event) :
    runIndent g32 g64 c ind (e :: rest) =
      runIndent g32 g64 c (ind + indentDelta e) rest := by
  rw [runIndent, logStep_indent]

theorem runIndent_append (g32 g64 : Nat → String) (c : Consumer) :
    ∀ (l₁ l₂ : List Event) (ind : Int),
      runIndent g32 g64 c ind (l₁ ++ l₂) =
        runIndent g32 g64 c (runIndent g32 g64 c ind l₁) l₂ := by
  intro l₁
  induction l₁ with
  | nil => intro l₂ ind; rfl
  | cons e rest ih =>
      intro l₂ ind
      rw [List.cons_append, runIndent, runIndent]
      exact ih l₂ _

theorem runIndent_balanced (g32 g64 : Nat → String) (c : Consumer)
    (es : List Event) (h : Balanced es) :
    ∀ ind : Int, runIndent g32 g64 c ind es = ind := by
  induction h with
  | nil => intro ind; rfl
  | leaf e rest h1 h2 _ ih =>
      intro ind
      rw [runIndent_cons, indentDelta_of_leaf e h1 h2, Int.add_zero]
      exact ih ind
  | nest b k inner rest hb _ _ ihInner ihRest =>
      intro ind
      rw [runIndent_cons, indentDelta_of_begin b k hb, runIndent_append,
        ihInner, runIndent_cons]
      show runIndent g32 g64 c (ind + INDENT_SIZE + indentDelta (.defEnd k)) rest = ind
      have : ind + INDENT_SIZE + indentDelta (.defEnd k) = ind := by
        simp [indentDelta, INDENT_SIZE]
      rw [this]
      exact ihRest ind

/-! ## The claims -/

/-- C1: Transparency of forwarding — for every event kind, invoking the
decorator with arguments `A` causes exactly one invocation of the
identically-named operation on the wrapped consumer with exactly the
arguments `A`, and the decorator returns exactly the result the wrapped
consumer returns for `A`. -/
theorem forwarding_transparency (g32 g64 : Nat → String) (c : Consumer)
    (ind : Int) (e : Event) :
    callsOf (logStep g32 g64 c ind e).acts = [e] ∧
      (logStep g32 g64 c ind e).res = c e :=
  ⟨logStep_calls g32 g64 c ind e, logStep_res g32 g64 c ind e⟩

/-- C9: Leave underflow is an assertion-level fault — `Dedent` decreases the
depth by one fixed unit (`INDENT_SIZE = 2`); whenever the depth before the
call is at least one unit, the `assert(indent_ >= 0)` holds (the failure
branch is unreachable); a `Dedent` at depth zero violates the assertion. -/
theorem dedent_underflow_assertion :
    (∀ ind : Int, Dedent ind = ind - INDENT_SIZE) ∧
      (∀ ind : Int, INDENT_SIZE ≤ ind → dedentAssertHolds ind) ∧
      ¬ dedentAssertHolds 0 :=
  ⟨fun _ => rfl,
    fun ind h => by simpa [dedentAssertHolds, Dedent] using h,
    by simp [dedentAssertHolds, Dedent, INDENT_SIZE]⟩

/-- Witness for C9, applying `dedent_underflow_assertion` at depth 4. -/
theorem dedent_underflow_assertion_witness : dedentAssertHolds 4 :=
  dedent_underflow_assertion.2.1 4 (by decide)

/-- C10: Trace output is independent of consumer results — within each
event the trace bytes are written before the wrapped consumer is invoked,
and two runs of the decorator over the same event sequence with consumers
returning different results produce byte-identical trace output. -/
theorem trace_independent_of_consumer (g32 g64 : Nat → String) :
    (∀ (c : Consumer) (ind : Int) (e : Event),
      ∃ ws : List String,
        (logStep g32 g64 c ind e).acts = ws.map Action.write ++ [Action.call e]) ∧
      (∀ (c₁ c₂ : Consumer) (ind : Int) (es : List Event),
        runTrace g32 g64 c₁ ind es = runTrace g32 g64 c₂ ind es) := by
  refine ⟨logStep_write_before_call g32 g64, ?_⟩
  intro c₁ c₂ ind es
  induction es generalizing ind with
  | nil => rfl
  | cons e rest ih =>
      rw [runTrace, runTrace, logStep_indent, logStep_indent]
      have hw : outputOf (logStep g32 g64 c₁ ind e) =
          outputOf (logStep g32 g64 c₂ ind e) := by
        unfold outputOf
        rw [logStep_writes_indep g32 g64 c₁ c₂ ind e]
      rw [hw, ih]

/-- C5: Indentation balance — the constructor initializes the depth to
zero, and for every well-formed event sequence (each begin matched by
exactly one corresponding end, properly nested) the indent depth after the
final event equals the depth before the first. -/
theorem indentation_balance (g32 g64 : Nat → String) (c : Consumer) :
    initialIndent = 0 ∧
      ∀ (es : List Event) (ind : Int), Balanced es →
        runIndent g32 g64 c ind es = ind :=
  ⟨rfl, fun es ind h => runIndent_balanced g32 g64 c es h ind⟩

/-- Witness for C5: a concrete balanced sequence — a module containing one
type section — processed from the initial depth, ends back at depth 0. -/
theorem indentation_balance_witness :
    runIndent (fun _ => "f32") (fun _ => "f64") (fun _ => Result.ok) 0
      [Event.beginModule 1, Event.defBegin .typeSection 12,
        Event.defEnd .endTypeSection, Event.defEnd .endModule] = 0 :=
  (indentation_balance _ _ _).2 _ 0
    (Balanced.nest (.beginModule 1) .endModule
      [Event.defBegin .typeSection 12, Event.defEnd .endTypeSection] [] rfl
      (Balanced.nest (.defBegin .typeSection 12) .endTypeSection [] [] rfl
        Balanced.nil Balanced.nil)
      Balanced.nil)

/-- C3: Exact indent-prefix width — `WriteIndent` writes exactly `depth`
spaces for every depth that fits the 142-byte static buffer, but NOT for
larger depths: the final `WriteData` passes `indent_` instead of the
remaining count `i`, so at depth 144 it writes 142 + 144 = 286 bytes
(reading past the buffer) instead of 144 spaces. -/
theorem writeIndent_chunk_bug :
    (∀ d : Nat, d ≤ s_indent_len → writeIndent d = spaces d) ∧
      (writeIndent 144).length = 286 ∧
      (spaces 144).length = 144 ∧
      writeIndent 144 ≠ spaces 144 := by
  refine ⟨writeIndent_of_le, ?_, ?_, ?_⟩
  · have h : writeIndent 144 = bufBytes 142 ++ bufBytes 144 := rfl
    rw [h, length_append, bufBytes_length, bufBytes_length]
    rfl
  · rfl
  · intro h
    have h1 : (writeIndent 144).length = (spaces 144).length := by rw [h]
    have h2 : (writeIndent 144).length = 286 := by
      have hr : writeIndent 144 = bufBytes 142 ++ bufBytes 144 := rfl
      rw [hr, length_append, bufBytes_length, bufBytes_length]; rfl
    have h3 : (spaces 144).length = 144 := rfl
    rw [h2, h3] at h1
    exact absurd h1 (by decide)

/-- Witness for C3, applying `writeIndent_chunk_bug` at depth 4: within the
buffer the prefix is exactly four spaces. -/
theorem writeIndent_chunk_bug_witness : writeIndent 4 = spaces 4 :=
  writeIndent_chunk_bug.1 4 (by decide)

/-- C4: the hex bit-pattern field of the f32/f64 constant trace lines does
NOT round-trip: the format strings are `(0x04%x)` and `(0x08%llx)` — the
printf zero-pad width slipped out of the conversion — so the characters
after `0x` are a literal `04`/`08` followed by the hex digits of the bits.
For bits = 1 the rendered field parses back as 0x041 = 65 (f32) and
0x081 = 129 (f64), not 1.  The `%x` digits themselves do round-trip, which
is what the spec intends. -/
theorem float_hex_field_mangled :
    outputOf (logStep (fun _ => "1.4013e-45") (fun _ => "4.9407e-324")
        (fun _ => Result.ok) 0 (.onF32ConstExpr 1)) =
      "OnF32ConstExpr(1.4013e-45 (0x" ++ "041" ++ "))\n" ∧
      parseHex "041" = 65 ∧ (65 : Nat) ≠ 1 ∧
      outputOf (logStep (fun _ => "1.4013e-45") (fun _ => "4.9407e-324")
          (fun _ => Result.ok) 0 (.onF64ConstExpr 1)) =
        "OnF64ConstExpr(4.9407e-324 (0x" ++ "081" ++ "))\n" ∧
      parseHex "081" = 129 ∧ (129 : Nat) ≠ 1 ∧
      ∀ bits : Nat, parseHex (hexNat bits) = bits := by
  refine ⟨by decide, by decide, by decide, by decide, by decide, by decide, ?_⟩
  exact parseHex_hexNat

/-- C8: Vector lane order — the 128-bit vector constant event renders the
four 32-bit lanes as separate zero-padded hex words in lane index order
0,1,2,3, and each printed hex word parses back to exactly that lane's
bits. -/
theorem v128_lane_order (g32 g64 : Nat → String) (c : Consumer) (ind : Int)
    (v : V128) (_h0 : v.v0 < 2 ^ 32) (_h1 : v.v1 < 2 ^ 32)
    (_h2 : v.v2 < 2 ^ 32) (_h3 : v.v3 < 2 ^ 32) :
    writesOf (logStep g32 g64 c ind (.onV128ConstExpr v)).acts =
      [logf ind ("OnV128ConstExpr(0x" ++ hex8 v.v0 ++ " 0x" ++ hex8 v.v1 ++
        " 0x" ++ hex8 v.v2 ++ " 0x" ++ hex8 v.v3 ++ ")\n")] ∧
      parseHex (hex8 v.v0) = v.v0 ∧ parseHex (hex8 v.v1) = v.v1 ∧
      parseHex (hex8 v.v2) = v.v2 ∧ parseHex (hex8 v.v3) = v.v3 :=
  ⟨rfl, parseHex_hex8 _, parseHex_hex8 _, parseHex_hex8 _, parseHex_hex8 _⟩

/-- Witness for C8: four distinct lane values 1,2,3,4 render in index
order and parse back. -/
theorem v128_lane_order_witness :
    writesOf (logStep (fun _ => "g") (fun _ => "g") (fun _ => Result.ok) 0
        (Event.onV128ConstExpr ⟨1, 2, 3, 4⟩)).acts =
      [logf 0 ("OnV128ConstExpr(0x" ++ hex8 1 ++ " 0x" ++ hex8 2 ++ " 0x" ++
        hex8 3 ++ " 0x" ++ hex8 4 ++ ")\n")] ∧
      parseHex (hex8 1) = 1 ∧ parseHex (hex8 2) = 2 ∧
      parseHex (hex8 3) = 3 ∧ parseHex (hex8 4) = 4 :=
  v128_lane_order (fun _ => "g") (fun _ => "g") (fun _ => Result.ok) 0
    ⟨1, 2, 3, 4⟩ (by decide) (by decide) (by decide) (by decide)

/-- C6 counterexample: `BeginFunctionBody` and `BeginGlobal` enter
structural regions but do NOT change the indent depth — at depth 0 the
depth after each call is still 0, not `0 + INDENT_SIZE`. -/
theorem begin_region_fixed_step_counterexample :
    (logStep (fun _ => "g") (fun _ => "g") (fun _ => Result.ok) 0
        (.beginFunctionBody 5 10)).indent = 0 ∧
      (logStep (fun _ => "g") (fun _ => "g") (fun _ => Result.ok) 0
          (.beginGlobal 0 .i32 true)).indent = 0 ∧
      (0 : Int) ≠ 0 + INDENT_SIZE :=
  ⟨rfl, rfl, by decide⟩

/-- C6 as amended: the fixed two-column depth step applies exactly to the
module, custom-section, and `DEFINE_BEGIN` section begin events (with the
`DEFINE_END` events subtracting the same step); `BeginFunctionBody` and
`BeginGlobal` — and their end events `EndFunctionBody`/`EndGlobal` — leave
the depth unchanged. -/
theorem begin_region_fixed_step_amended (g32 g64 : Nat → String)
    (c : Consumer) (ind : Int) :
    (∀ (k : DefBeginKind) (size : Nat),
        (logStep g32 g64 c ind (.defBegin k size)).indent = ind + INDENT_SIZE) ∧
      (∀ version : Nat,
        (logStep g32 g64 c ind (.beginModule version)).indent =
          ind + INDENT_SIZE) ∧
      (∀ (size : Nat) (name : String),
        (logStep g32 g64 c ind (.beginCustomSection size name)).indent =
          ind + INDENT_SIZE) ∧
      (∀ k : DefEndKind,
        (logStep g32 g64 c ind (.defEnd k)).indent = ind - INDENT_SIZE) ∧
      (∀ value size : Nat,
        (logStep g32 g64 c ind (.beginFunctionBody value size)).indent = ind) ∧
      (∀ (index : Nat) (type : PrimType) (isMutable : Bool),
        (logStep g32 g64 c ind (.beginGlobal index type isMutable)).indent =
          ind) ∧
      (∀ value : Nat,
        (logStep g32 g64 c ind (.defIndex .endFunctionBody value)).indent =
          ind) ∧
      (∀ value : Nat,
        (logStep g32 g64 c ind (.defIndex .endGlobal value)).indent = ind) :=
  ⟨fun _ _ => rfl, fun _ => rfl, fun _ _ => rfl, fun _ => rfl, fun _ _ => rfl,
    fun _ _ _ => rfl, fun _ => rfl, fun _ => rfl⟩

/-- C7 counterexample: `EndFunctionBody` is a structural end event, yet it
performs no `Dedent` (depth stays 4) and renders an index argument
(`EndFunctionBody(3)`), so end events do carry a payload here. -/
theorem end_event_counterexample :
    (logStep (fun _ => "g") (fun _ => "g") (fun _ => Result.ok) 4
        (.defIndex .endFunctionBody 3)).indent = 4 ∧
      (4 : Int) ≠ 4 - INDENT_SIZE ∧
      outputOf (logStep (fun _ => "g") (fun _ => "g") (fun _ => Result.ok) 4
          (.defIndex .endFunctionBody 3)) =
        spaces 4 ++ "EndFunctionBody(3)\n" :=
  ⟨rfl, by decide, by decide⟩

/-- C7 as amended: for the `DEFINE_END` events (module, custom section and
the section end events) the decorator performs the `Dedent` transition
first — the line's indent prefix already uses the decremented depth — and
renders the bare event name with no arguments; `EndFunctionBody`,
`EndGlobal` and `EndGlobalInitExpr` are instead index-carrying leaf events:
they render `Name(index)` at the current depth with no transition. -/
theorem end_event_render_amended (g32 g64 : Nat → String) (c : Consumer)
    (ind : Int) :
    (∀ k : DefEndKind,
        (logStep g32 g64 c ind (.defEnd k)).indent = Dedent ind ∧
        (logStep g32 g64 c ind (.defEnd k)).acts =
          [.write (writeIndent (Dedent ind).toNat ++ (k.name ++ "\n")),
            .call (.defEnd k)] ∧
        '(' ∉ k.name.data) ∧
      (∀ value : Nat,
        (logStep g32 g64 c ind (.defIndex .endFunctionBody value)).indent =
            ind ∧
          writesOf (logStep g32 g64 c ind
              (.defIndex .endFunctionBody value)).acts =
            [logf ind ("EndFunctionBody(" ++ decNat value ++ ")\n")]) ∧
      (∀ value : Nat,
        (logStep g32 g64 c ind (.defIndex .endGlobal value)).indent = ind ∧
          writesOf (logStep g32 g64 c ind (.defIndex .endGlobal value)).acts =
            [logf ind ("EndGlobal(" ++ decNat value ++ ")\n")]) ∧
      (∀ value : Nat,
        (logStep g32 g64 c ind
            (.defIndex .endGlobalInitExpr value)).indent = ind ∧
          writesOf (logStep g32 g64 c ind
              (.defIndex .endGlobalInitExpr value)).acts =
            [logf ind ("EndGlobalInitExpr(" ++ decNat value ++ ")\n")]) :=
  ⟨fun k => ⟨rfl, rfl, by cases k <;> decide⟩,
    fun _ => ⟨rfl, rfl⟩, fun _ => ⟨rfl, rfl⟩, fun _ => ⟨rfl, rfl⟩⟩

/-! ## One trace line per event (C2) -/

/-- A string ends with a newline character. -/
def endsNl (s : String) : Prop := s.data.getLast? = some '\n'

instance (s : String) : Decidable (endsNl s) := by
  unfold endsNl; infer_instance

theorem endsNl_append (a b : String) (h : endsNl b) : endsNl (a ++ b) := by
  unfold endsNl at *
  rw [string_append_data, List.getLast?_append_of_ne_nil]
  · exact h
  · intro hb
    rw [hb] at h
    exact Option.noConfusion h

/-- The events the source forwards without rendering: the error event, the
state-snapshot event, the generic `BeginSection` routing event, the
`OnOpcode*` raw-opcode routing events, and `OnEndFunc`. -/
def silentEvent : Event → Bool
  | .onError _ => true
  | .onSetState _ => true
  | .beginSection _ _ _ => true
  | .onOpcode _ => true
  | .onOpcodeBare => true
  | .onOpcodeIndex _ => true
  | .onOpcodeIndexIndex _ _ => true
  | .onOpcodeUint32 _ => true
  | .onOpcodeUint32Uint32 _ _ => true
  | .onOpcodeUint64 _ => true
  | .onOpcodeF32 _ => true
  | .onOpcodeF64 _ => true
  | .onOpcodeV128 _ => true
  | .onOpcodeBlockSig _ => true
  | .onEndFunc => true
  | _ => false

/-- The silent set as claim C2 states it: the raw-opcode routing events
(`OnOpcode*`, including the `OnEndFunc` routing event) and the
state-snapshot event — the claim does not except the error event or the
generic `BeginSection` routing event. -/
def claimSilentEvent : Event → Bool
  | .onSetState _ => true
  | .onOpcode _ => true
  | .onOpcodeBare => true
  | .onOpcodeIndex _ => true
  | .onOpcodeIndexIndex _ _ => true
  | .onOpcodeUint32 _ => true
  | .onOpcodeUint32Uint32 _ _ => true
  | .onOpcodeUint64 _ => true
  | .onOpcodeF32 _ => true
  | .onOpcodeF64 _ => true
  | .onOpcodeV128 _ => true
  | .onOpcodeBlockSig _ => true
  | .onEndFunc => true
  | _ => false

/-- The verbatim-printed text reaching a trace line: the string-valued
arguments of the event (and the `%g` renderings for the float-constant
events) contain no newline character.  printf `%g` output never contains a
newline; string names come from the module being decoded. -/
def renderHypo (g32 g64 : Nat → String) : Event → Prop
  | .beginCustomSection _ sectionName => nlCount sectionName = 0
  | .onImport _ m f => nlCount m = 0 ∧ nlCount f = 0
  | .onExport _ kind _ name => nlCount kind.name = 0 ∧ nlCount name = 0
  | .onF32ConstExpr b => nlCount (g32 b) = 0
  | .onF64ConstExpr b => nlCount (g64 b) = 0
  | .onModuleName n => nlCount n = 0
  | .onFunctionName _ n => nlCount n = 0
  | .onLocalName _ _ n => nlCount n = 0
  | .onInitExprF32ConstExpr _ b => nlCount (g32 b) = 0
  | .onInitExprF64ConstExpr _ b => nlCount (g64 b) = 0
  | .onDylinkNeeded n => nlCount n = 0
  | .onReloc t _ _ _ => nlCount t.name = 0
  | .onSymbol _ t _ => nlCount t.name = 0
  | .onDataSymbol _ _ n _ _ _ => nlCount n = 0
  | .onFunctionSymbol _ _ n _ => nlCount n = 0
  | .onGlobalSymbol _ _ n _ => nlCount n = 0
  | .onEventSymbol _ _ n _ => nlCount n = 0
  | .onSegmentInfo _ n _ _ => nlCount n = 0
  | .onComdatBegin n _ _ => nlCount n = 0
  | .defOpcode _ op => nlCount op.name = 0
  | .defLoadStore _ op _ _ => nlCount op.name = 0
  | _ => True

theorem nlCount_primTypeName (p : PrimType) : nlCount p.name = 0 := by
  cases p <;> decide

theorem nlCount_getTypeName (p : PrimType) : nlCount (getTypeName p) = 0 :=
  nlCount_primTypeName p

theorem nlCount_boolStr (b : Bool) : nlCount (boolStr b) = 0 := by
  cases b <;> decide

theorem nlCount_logType (t : TypeDesc) : nlCount (logType t) = 0 := by
  cases t with
  | prim p => exact nlCount_primTypeName p
  | funcIndex i =>
      show nlCount ("funcidx[" ++ decU32AsI32 i ++ "]") = 0
      rw [nlCount_append, nlCount_append, nlCount_decU32AsI32]
      decide

theorem nlCount_logTypesAux (ts : List TypeDesc) : nlCount (logTypesAux ts) = 0 := by
  induction ts with
  | nil => rfl
  | cons t rest ih =>
      cases rest with
      | nil => exact nlCount_logType t
      | cons t2 r2 =>
          show nlCount (logType t ++ ", " ++ logTypesAux (t2 :: r2)) = 0
          rw [nlCount_append, nlCount_append, nlCount_logType, ih]
          decide

theorem nlCount_logTypes (ts : List TypeDesc) : nlCount (logTypes ts) = 0 := by
  unfold logTypes
  rw [nlCount_append, nlCount_append, nlCount_logTypesAux]
  decide

theorem nlCount_sepDecNats (ns : List Nat) : nlCount (sepDecNats ns) = 0 := by
  induction ns with
  | nil => rfl
  | cons n rest ih =>
      cases rest with
      | nil => exact nlCount_decNat n
      | cons n2 r2 =>
          show nlCount (decNat n ++ ", " ++ sepDecNats (n2 :: r2)) = 0
          rw [nlCount_append, nlCount_append, nlCount_decNat, ih]
          decide

theorem nlCount_sprintLimits (l : Limits) : nlCount (sprintLimits l) = 0 := by
  unfold sprintLimits
  split
  · rw [nlCount_append, nlCount_append, nlCount_append, nlCount_decNat,
      nlCount_decNat]
    decide
  · rw [nlCount_append, nlCount_decNat]
    decide

theorem nlCount_defBeginName (k : DefBeginKind) : nlCount k.name = 0 := by
  cases k <;> decide

theorem nlCount_defEndName (k : DefEndKind) : nlCount k.name = 0 := by
  cases k <;> decide

theorem nlCount_defIndexName (k : DefIndexKind) : nlCount k.name = 0 := by
  cases k <;> decide

theorem nlCount_defIndexDescName (k : DefIndexDescKind) : nlCount k.name = 0 := by
  cases k <;> decide

theorem nlCount_defIndexDescDesc (k : DefIndexDescKind) : nlCount k.desc = 0 := by
  cases k <;> decide

theorem nlCount_defIndexIndexName (k : DefIndexIndexKind) : nlCount k.name = 0 := by
  cases k <;> decide

theorem nlCount_defIndexIndexDesc0 (k : DefIndexIndexKind) : nlCount k.desc0 = 0 := by
  cases k <;> decide

theorem nlCount_defIndexIndexDesc1 (k : DefIndexIndexKind) : nlCount k.desc1 = 0 := by
  cases k <;> decide

theorem nlCount_defOpcodeName (k : DefOpcodeKind) : nlCount k.name = 0 := by
  cases k <;> decide

theorem nlCount_defLoadStoreName (k : DefLoadStoreKind) : nlCount k.name = 0 := by
  cases k <;> decide

theorem nlCount_defZeroName (k : DefZeroKind) : nlCount k.name = 0 := by
  cases k <;> decide

attribute [simp] nlCount_append nlCount_decNat nlCount_hexNat nlCount_hex8
  nlCount_decInt nlCount_decU32AsI32 nlCount_writeIndent nlCount_boolStr
  nlCount_primTypeName nlCount_getTypeName nlCount_logType nlCount_logTypes
  nlCount_logTypesAux nlCount_sepDecNats nlCount_sprintLimits
  nlCount_defBeginName nlCount_defEndName nlCount_defIndexName
  nlCount_defIndexDescName nlCount_defIndexDescDesc nlCount_defIndexIndexName
  nlCount_defIndexIndexDesc0 nlCount_defIndexIndexDesc1 nlCount_defOpcodeName
  nlCount_defLoadStoreName nlCount_defZeroName

/-- A rendering step whose actions are one `LOGF` write followed by the
delegate call emits exactly one newline-terminated line. -/
theorem oneLine_step (g32 g64 : Nat → String) (c : Consumer) (ind j : Int)
    (e : Event) (b : String)
    (hacts : (logStep g32 g64 c ind e).acts = [.write (logf j b), .call e])
    (h1 : nlCount b = 1) (h2 : endsNl b) :
    nlCount (outputOf (logStep g32 g64 c ind e)) = 1 ∧
      endsNl (outputOf (logStep g32 g64 c ind e)) := by
  have hout : outputOf (logStep g32 g64 c ind e) = logf j b := by
    unfold outputOf
    rw [hacts]
    rfl
  rw [hout]
  unfold logf
  exact ⟨by rw [nlCount_append, nlCount_writeIndent, h1],
    endsNl_append _ _ h2⟩

/-- C2 counterexample: the generic `BeginSection` routing event and the
error event are outside the claim's silent set (raw-opcode routing events
and the state-snapshot event), yet both produce zero trace lines — while
still invoking the wrapped consumer with the same arguments. -/
theorem one_trace_line_counterexample :
    claimSilentEvent (.beginSection 1 2 3) = false ∧
      outputOf (logStep (fun _ => "g") (fun _ => "g") (fun _ => Result.ok) 0
        (.beginSection 1 2 3)) = "" ∧
      callsOf (logStep (fun _ => "g") (fun _ => "g") (fun _ => Result.ok) 0
        (.beginSection 1 2 3)).acts = [.beginSection 1 2 3] ∧
      claimSilentEvent (.onError "bad magic") = false ∧
      outputOf (logStep (fun _ => "g") (fun _ => "g") (fun _ => Result.ok) 0
        (.onError "bad magic")) = "" ∧
      callsOf (logStep (fun _ => "g") (fun _ => "g") (fun _ => Result.ok) 0
        (.onError "bad magic")).acts = [.onError "bad magic"] :=
  ⟨rfl, rfl, rfl, rfl, rfl, rfl⟩

/-- C2 as amended: the silently forwarded events are exactly the raw-opcode
routing events (`OnOpcode*` and `OnEndFunc`), the state-snapshot event, the
error event, and the generic `BeginSection` routing event — these produce
zero trace bytes; every other event produces exactly one newline-terminated
trace line; and every event, silent or not, invokes the wrapped consumer
exactly once with the same arguments. -/
theorem one_trace_line_per_event (g32 g64 : Nat → String) (c : Consumer)
    (ind : Int) (e : Event) (h : renderHypo g32 g64 e) :
    (silentEvent e = true → outputOf (logStep g32 g64 c ind e) = "") ∧
      (silentEvent e = false →
        nlCount (outputOf (logStep g32 g64 c ind e)) = 1 ∧
          endsNl (outputOf (logStep g32 g64 c ind e))) ∧
      callsOf (logStep g32 g64 c ind e).acts = [e] := by
  cases e <;>
    first
      | exact ⟨fun _ => rfl, fun hf => Bool.noConfusion hf, rfl⟩
      | (refine ⟨fun ht => Bool.noConfusion ht,
          fun _ => oneLine_step g32 g64 c ind _ _ _ rfl ?_
            (endsNl_append _ _ (by decide)), rfl⟩
         first
           | (simp +decide
              done)
           | (simp only [renderHypo] at h
              simp +decide [h]
              done))

/-- Witness for C2, applying `one_trace_line_per_event` to a concrete
`OnType` event at depth 4. -/
theorem one_trace_line_per_event_witness :
    (silentEvent (.onType 0 [] [.prim .i32]) = true →
        outputOf (logStep (fun _ => "g") (fun _ => "g") (fun _ => Result.ok) 4
          (.onType 0 [] [.prim .i32])) = "") ∧
      (silentEvent (.onType 0 [] [.prim .i32]) = false →
        nlCount (outputOf (logStep (fun _ => "g") (fun _ => "g")
            (fun _ => Result.ok) 4 (.onType 0 [] [.prim .i32]))) = 1 ∧
          endsNl (outputOf (logStep (fun _ => "g") (fun _ => "g")
            (fun _ => Result.ok) 4 (.onType 0 [] [.prim .i32])))) ∧
      callsOf (logStep (fun _ => "g") (fun _ => "g") (fun _ => Result.ok) 4
        (.onType 0 [] [.prim .i32])).acts = [.onType 0 [] [.prim .i32]] :=
  one_trace_line_per_event (fun _ => "g") (fun _ => "g") (fun _ => Result.ok) 4
    (.onType 0 [] [.prim .i32]) trivial

end Wabt
